import Mathlib

/-!
Shallow embedding of `src/vhost/src/vhost_user/gpu_message.rs`: the
vhost-user GPU sub-protocol message header (`VhostUserGpuMsgHeader`),
its request-code registry (`GpuBackendReq`), and the flag constants
(`VhostUserGpuHeaderFlag`).  Machine integers (`u32`) are modelled as
`Nat`; every operation of the source either stays below `2 ^ 32` on
`u32` inputs or is stated with an explicit bound where it matters.
-/

/-- The error type of `crate::vhost_user::Error`, restricted to the one
variant this module produces. -/
inductive Error where
  | InvalidMessage
deriving DecidableEq

/-- Type of requests sent from gpu backends to gpu frontends
(`enum GpuBackendReq: u32`, discriminants start at 1 and increase by one
per variant in declaration order). -/
inductive GpuBackendReq where
  | GET_PROTOCOL_FEATURES
  | SET_PROTOCOL_FEATURES
  | GET_DISPLAY_INFO
  | CURSOR_POS
  | CURSOR_POS_HIDE
  | SCANOUT
  | UPDATE
  | DMABUF_SCANOUT
  | DMABUF_UPDATE
  | GET_EDID
  | VHOST_USER_GPU_DMABUF_SCANOUT2
deriving DecidableEq

/-- Wire encoding of a `GpuBackendReq` (the `Into<u32>` direction of the
`enum_value!` macro): the declared discriminants. -/
def GpuBackendReq.into : GpuBackendReq → Nat
  | .GET_PROTOCOL_FEATURES => 1
  | .SET_PROTOCOL_FEATURES => 2
  | .GET_DISPLAY_INFO => 3
  | .CURSOR_POS => 4
  | .CURSOR_POS_HIDE => 5
  | .SCANOUT => 6
  | .UPDATE => 7
  | .DMABUF_SCANOUT => 8
  | .DMABUF_UPDATE => 9
  | .GET_EDID => 10
  | .VHOST_USER_GPU_DMABUF_SCANOUT2 => 11

/-- Wire decoding of a `GpuBackendReq` (the `TryFrom<u32>` direction of
the `enum_value!` macro): succeeds exactly on the declared
discriminants. -/
def GpuBackendReq.tryFrom : Nat → Option GpuBackendReq
  | 1 => some .GET_PROTOCOL_FEATURES
  | 2 => some .SET_PROTOCOL_FEATURES
  | 3 => some .GET_DISPLAY_INFO
  | 4 => some .CURSOR_POS
  | 5 => some .CURSOR_POS_HIDE
  | 6 => some .SCANOUT
  | 7 => some .UPDATE
  | 8 => some .DMABUF_SCANOUT
  | 9 => some .DMABUF_UPDATE
  | 10 => some .GET_EDID
  | 11 => some .VHOST_USER_GPU_DMABUF_SCANOUT2
  | _ => none

/-- The capability the Rust `Req` trait gives a code enumeration used as
a header tag: conversion into `u32` and fallible conversion back. -/
class Req (R : Type) where
  into : R → Nat
  tryFrom : Nat → Option R

instance : Req GpuBackendReq where
  into := GpuBackendReq.into
  tryFrom := GpuBackendReq.tryFrom

/-- Rust `bitflags!` block `VhostUserGpuHeaderFlag`: the `REPLY` flag
(mark message as reply). -/
def VhostUserGpuHeaderFlag.REPLY : Nat := 0x4

/-- The union of all flags declared in the `VhostUserGpuHeaderFlag`
block (what `ALL_FLAGS.bits()` evaluates to: only `REPLY` is
declared). -/
def VhostUserGpuHeaderFlag.ALL_FLAGS : Nat := VhostUserGpuHeaderFlag.REPLY

/-- A vhost-user GPU message header: three `u32` fields plus a
zero-sized phantom tag `R` naming the code enumeration the header is
valid against (the tag is a type parameter only; it is not data). -/
structure VhostUserGpuMsgHeader (R : Type) where
  request : Nat
  flags : Nat
  size : Nat
deriving DecidableEq

/-- Models `PartialEq for VhostUserGpuMsgHeader`: two headers are equal iff the
three fields are pairwise equal. -/
def VhostUserGpuMsgHeader.eq {R : Type} (a b : VhostUserGpuMsgHeader R) : Bool :=
  a.request == b.request && a.flags == b.flags && a.size == b.size

/-- Models `VhostUserGpuMsgHeader::new(request, flags, size)`: stores the wire
encoding of `request`, masks the caller flags against `ALL_FLAGS` and
sets the protocol-version bit `0x1`, stores `size` verbatim. -/
def VhostUserGpuMsgHeader.new {R : Type} [Req R] (request : R) (flags size : Nat) :
    VhostUserGpuMsgHeader R :=
  { request := Req.into request
    flags := (flags &&& VhostUserGpuHeaderFlag.ALL_FLAGS) ||| 0x1
    size := size }

/-- Models `VhostUserGpuMsgHeader::get_code`: decodes the stored `request`,
mapping a decode failure to `Error::InvalidMessage`. -/
def VhostUserGpuMsgHeader.get_code {R : Type} [Req R] (h : VhostUserGpuMsgHeader R) :
    Except Error R :=
  match Req.tryFrom h.request with
  | some code => .ok code
  | none => .error .InvalidMessage

/-- Models `VhostUserGpuMsgHeader::is_reply`: the `REPLY` bit is set. -/
def VhostUserGpuMsgHeader.is_reply {R : Type} (h : VhostUserGpuMsgHeader R) : Bool :=
  (h.flags &&& VhostUserGpuHeaderFlag.REPLY) != 0

/-- Models `VhostUserGpuMsgHeader::set_reply(is_reply)`: sets or clears the
`REPLY` bit (`!REPLY.bits()` is `u32` complement, i.e. xor with
`0xFFFF_FFFF`). -/
def VhostUserGpuMsgHeader.set_reply {R : Type} (h : VhostUserGpuMsgHeader R)
    (is_reply : Bool) : VhostUserGpuMsgHeader R :=
  if is_reply then
    { h with flags := h.flags ||| VhostUserGpuHeaderFlag.REPLY }
  else
    { h with flags := h.flags &&& (0xFFFFFFFF ^^^ VhostUserGpuHeaderFlag.REPLY) }

/-- Models `VhostUserGpuMsgHeader::is_reply_for(req)`: both codes decode, self
is a reply, `req` is not, and the codes agree. -/
def VhostUserGpuMsgHeader.is_reply_for {R : Type} [Req R] [DecidableEq R]
    (h req : VhostUserGpuMsgHeader R) : Bool :=
  match h.get_code, req.get_code with
  | .ok code1, .ok code2 => h.is_reply && !req.is_reply && decide (code1 = code2)
  | _, _ => false

/-- Models `VhostUserGpuMsgHeader::get_size`. -/
def VhostUserGpuMsgHeader.get_size {R : Type} (h : VhostUserGpuMsgHeader R) : Nat :=
  h.size

/-- Models `VhostUserGpuMsgHeader::set_size(size)`. -/
def VhostUserGpuMsgHeader.set_size {R : Type} (h : VhostUserGpuMsgHeader R)
    (size : Nat) : VhostUserGpuMsgHeader R :=
  { h with size := size }

/-- Models `Default for VhostUserGpuMsgHeader`: `request = 0`,
`flags = 0x1`, `size = 0`. -/
def VhostUserGpuMsgHeader.default (R : Type) : VhostUserGpuMsgHeader R :=
  { request := 0, flags := 0x1, size := 0 }

/-- Models `VhostUserMsgValidator::is_valid` for `VhostUserGpuMsgHeader`:
`get_code()` succeeds. -/
def VhostUserGpuMsgHeader.is_valid {R : Type} [Req R] (h : VhostUserGpuMsgHeader R) :
    Bool :=
  match h.get_code with
  | .ok _ => true
  | .error _ => false

/-- Little-endian byte decomposition of a `u32` (native byte order of
the reference machine; `#[repr(C, packed)]` gives the fields at offsets
0, 4 and 8 with no padding). -/
def u32ToBytes (v : Nat) : List Nat :=
  [v % 256, v / 256 % 256, v / 65536 % 256, v / 16777216 % 256]

/-- Little-endian recomposition of a `u32` from four bytes. -/
def u32FromBytes (b0 b1 b2 b3 : Nat) : Nat :=
  b0 + 256 * b1 + 65536 * b2 + 16777216 * b3

/-- Wire serialization (`ByteValued`) of a header: the three `u32` fields at
byte offsets 0, 4 and 8, twelve bytes total. -/
def VhostUserGpuMsgHeader.toBytes {R : Type} (h : VhostUserGpuMsgHeader R) :
    List Nat :=
  u32ToBytes h.request ++ u32ToBytes h.flags ++ u32ToBytes h.size

/-- Wire deserialization (`ByteValued`) of a header: reinterpret exactly twelve
bytes as the three `u32` fields. -/
def VhostUserGpuMsgHeader.fromBytes (R : Type) (bs : List Nat) :
    Option (VhostUserGpuMsgHeader R) :=
  match bs with
  | [b0, b1, b2, b3, b4, b5, b6, b7, b8, b9, b10, b11] =>
    some { request := u32FromBytes b0 b1 b2 b3
           flags := u32FromBytes b4 b5 b6 b7
           size := u32FromBytes b8 b9 b10 b11 }
  | _ => none

/-- The flags invariant of the spec: the version bit (bit 0) is set and
no bit outside the defined flag set (bits 0 and 2, i.e. values 0x1 and
0x4) is set. -/
def flagsInvariant {R : Type} (h : VhostUserGpuMsgHeader R) : Prop :=
  Nat.testBit h.flags 0 = true ∧
  ∀ i : Nat, i ≠ 0 → i ≠ 2 → Nat.testBit h.flags i = false

example : GpuBackendReq.tryFrom 3 = some .GET_DISPLAY_INFO := by decide
example : GpuBackendReq.tryFrom 0 = none := by decide
example : GpuBackendReq.tryFrom 999 = none := by decide
example : ∀ n : Nat, GpuBackendReq.tryFrom (n + 12) = none := fun _ => rfl
example :
    (VhostUserGpuMsgHeader.new GpuBackendReq.CURSOR_POS 0xFF 7).flags = 0x5 := by
  decide

/-! ### Bit-level helper lemmas -/

lemma testBit_reply (i : Nat) :
    Nat.testBit VhostUserGpuHeaderFlag.REPLY i = decide (i = 2) := by
  have h : VhostUserGpuHeaderFlag.REPLY = 2 ^ 2 := rfl
  rw [h, Nat.testBit_two_pow]
  by_cases hi : i = 2 <;> simp [hi, Ne.symm]

lemma testBit_one_bit (i : Nat) : Nat.testBit 0x1 i = decide (i = 0) := by
  have h : (0x1 : Nat) = 2 ^ 0 := rfl
  rw [h, Nat.testBit_two_pow]
  by_cases hi : i = 0 <;> simp [hi, Ne.symm]

lemma testBit_ones32 (i : Nat) : Nat.testBit 0xFFFFFFFF i = decide (i < 32) := by
  have h : (0xFFFFFFFF : Nat) = 2 ^ 32 - 1 := by norm_num
  rw [h, Nat.testBit_two_pow_sub_one]

lemma testBit_not_reply (i : Nat) :
    Nat.testBit (0xFFFFFFFF ^^^ VhostUserGpuHeaderFlag.REPLY) i =
      (decide (i < 32) && !decide (i = 2)) := by
  rw [Nat.testBit_xor, testBit_ones32, testBit_reply]
  by_cases h2 : i = 2
  · subst h2; decide
  · by_cases h32 : i < 32 <;> simp [h2, h32]

lemma testBit_high_of_lt {v i : Nat} (hv : v < 2 ^ 32) (hi : 32 ≤ i) :
    Nat.testBit v i = false := by
  apply Nat.testBit_lt_two_pow
  calc v < 2 ^ 32 := hv
    _ ≤ 2 ^ i := Nat.pow_le_pow_right (by norm_num) hi

/-! ### Registry helper lemmas -/

lemma tryFrom_none_of_big {v : Nat} (h : 12 ≤ v) : GpuBackendReq.tryFrom v = none := by
  obtain ⟨n, rfl⟩ : ∃ n, v = n + 12 := ⟨v - 12, by omega⟩
  rfl

lemma tryFrom_isSome_iff (v : Nat) :
    (GpuBackendReq.tryFrom v).isSome = true ↔ 1 ≤ v ∧ v ≤ 11 := by
  by_cases h : v ≤ 11
  · interval_cases v <;> decide
  · rw [tryFrom_none_of_big (by omega)]
    simp
    omega

lemma is_valid_eq_isSome {R : Type} [Req R] (h : VhostUserGpuMsgHeader R) :
    h.is_valid = (Req.tryFrom (R := R) h.request).isSome := by
  unfold VhostUserGpuMsgHeader.is_valid VhostUserGpuMsgHeader.get_code
  cases Req.tryFrom (R := R) h.request <;> rfl

/-! ### Claim theorems -/

/-- C8: the default-constructed header has `request = 0`, `flags` equal
to the version bit `0x1` only, and `size = 0`, and it is invalid
(`is_valid` is `false`, since `request = 0` decodes to no registered
code). -/
theorem default_header_fields_and_invalid :
    (VhostUserGpuMsgHeader.default GpuBackendReq).request = 0 ∧
    (VhostUserGpuMsgHeader.default GpuBackendReq).flags = 0x1 ∧
    (VhostUserGpuMsgHeader.default GpuBackendReq).size = 0 ∧
    (VhostUserGpuMsgHeader.default GpuBackendReq).is_valid = false := by
  refine ⟨rfl, rfl, rfl, ?_⟩
  decide

/-- C5: the request-code registry is a closed, dense, 1-based
enumeration of exactly 11 codes with the stated wire values; `into` is
total by construction, `tryFrom` succeeds exactly on the values 1
through 11, and `tryFrom (into c) = some c` for every code `c`. -/
theorem gpu_backend_req_registry :
    (GpuBackendReq.into .GET_PROTOCOL_FEATURES = 1 ∧
     GpuBackendReq.into .SET_PROTOCOL_FEATURES = 2 ∧
     GpuBackendReq.into .GET_DISPLAY_INFO = 3 ∧
     GpuBackendReq.into .CURSOR_POS = 4 ∧
     GpuBackendReq.into .CURSOR_POS_HIDE = 5 ∧
     GpuBackendReq.into .SCANOUT = 6 ∧
     GpuBackendReq.into .UPDATE = 7 ∧
     GpuBackendReq.into .DMABUF_SCANOUT = 8 ∧
     GpuBackendReq.into .DMABUF_UPDATE = 9 ∧
     GpuBackendReq.into .GET_EDID = 10 ∧
     GpuBackendReq.into .VHOST_USER_GPU_DMABUF_SCANOUT2 = 11) ∧
    (∀ c : GpuBackendReq, GpuBackendReq.tryFrom (GpuBackendReq.into c) = some c) ∧
    (∀ v : Nat, (∃ c, GpuBackendReq.tryFrom v = some c) ↔ 1 ≤ v ∧ v ≤ 11) := by
  refine ⟨by decide, ?_, ?_⟩
  · intro c
    cases c <;> rfl
  · intro v
    rw [← tryFrom_isSome_iff v]
    cases htf : GpuBackendReq.tryFrom v <;> simp [htf]

/-- Closed-form instance of C5: decoding the encoding of `GET_EDID`
recovers `GET_EDID`. -/
theorem gpu_backend_req_registry_witness :
    GpuBackendReq.tryFrom (GpuBackendReq.into .GET_EDID) = some .GET_EDID :=
  gpu_backend_req_registry.2.1 .GET_EDID

/-- C3: `is_valid` is true iff `get_code` succeeds; `get_code` fails
with `InvalidMessage` exactly when the stored `request` does not decode;
for the `GpuBackendReq` enumeration validity holds iff `request` is one
of the 11 values 1 through 11; and neither `size` nor `flags` affect
validity. -/
theorem is_valid_characterization (h : VhostUserGpuMsgHeader GpuBackendReq) :
    (h.is_valid = true ↔ ∃ c, h.get_code = Except.ok c) ∧
    (h.get_code = Except.error Error.InvalidMessage ↔
      GpuBackendReq.tryFrom h.request = none) ∧
    (h.is_valid = true ↔ 1 ≤ h.request ∧ h.request ≤ 11) ∧
    (∀ f s : Nat,
      (VhostUserGpuMsgHeader.mk h.request f s :
        VhostUserGpuMsgHeader GpuBackendReq).is_valid = h.is_valid) := by
  refine ⟨?_, ?_, ?_, ?_⟩
  · unfold VhostUserGpuMsgHeader.is_valid VhostUserGpuMsgHeader.get_code
    cases Req.tryFrom (R := GpuBackendReq) h.request <;> simp
  · unfold VhostUserGpuMsgHeader.get_code
    cases htf : Req.tryFrom (R := GpuBackendReq) h.request <;>
      simp_all [Req.tryFrom]
  · rw [is_valid_eq_isSome h]
    exact tryFrom_isSome_iff h.request
  · intro f s
    rw [is_valid_eq_isSome, is_valid_eq_isSome]

/-- Closed-form instance of C3: `request = 3` is valid, `request = 0`
and `request = 999` are invalid, via the 1-to-11 characterization. -/
theorem is_valid_characterization_witness :
    (VhostUserGpuMsgHeader.mk 3 0x1 0 :
      VhostUserGpuMsgHeader GpuBackendReq).is_valid = true ∧
    ¬ ((VhostUserGpuMsgHeader.mk 999 0x1 0 :
      VhostUserGpuMsgHeader GpuBackendReq).is_valid = true) := by
  constructor
  · exact (is_valid_characterization (VhostUserGpuMsgHeader.mk 3 0x1 0)).2.2.1.mpr
      (by decide)
  · intro hv
    have := (is_valid_characterization
      (VhostUserGpuMsgHeader.mk 999 0x1 0)).2.2.1.mp hv
    exact absurd this (by decide)

/-- C1: `new(r, f, n)` stores `request` as the wire encoding of `r`,
stores `flags` as `(f & REPLY) | 0x1`, stores `size` as exactly `n`;
the version bit `0x1` is always set and every bit outside the defined
flag set (bits 0 and 2) is dropped. -/
theorem new_header_fields {R : Type} [Req R] (r : R) (f n : Nat) :
    (VhostUserGpuMsgHeader.new r f n).request = Req.into r ∧
    (VhostUserGpuMsgHeader.new r f n).flags =
      ((f &&& VhostUserGpuHeaderFlag.REPLY) ||| 0x1) ∧
    (VhostUserGpuMsgHeader.new r f n).size = n ∧
    Nat.testBit (VhostUserGpuMsgHeader.new r f n).flags 0 = true ∧
    (∀ i : Nat, i ≠ 0 → i ≠ 2 →
      Nat.testBit (VhostUserGpuMsgHeader.new r f n).flags i = false) := by
  refine ⟨rfl, rfl, rfl, ?_, ?_⟩
  · show Nat.testBit ((f &&& VhostUserGpuHeaderFlag.REPLY) ||| 0x1) 0 = true
    rw [Nat.testBit_lor, testBit_one_bit]
    simp
  · intro i hi0 hi2
    show Nat.testBit ((f &&& VhostUserGpuHeaderFlag.REPLY) ||| 0x1) i = false
    rw [Nat.testBit_lor, Nat.testBit_land, testBit_reply, testBit_one_bit]
    simp [hi0, hi2]

/-- Closed-form instance of C1: constructing with garbage flags `0xFF`
yields flags `0x5`, and the stray bit 3 is absent. -/
theorem new_header_fields_witness :
    (VhostUserGpuMsgHeader.new GpuBackendReq.CURSOR_POS 0xFF 7).flags =
      ((0xFF &&& VhostUserGpuHeaderFlag.REPLY) ||| 0x1) ∧
    Nat.testBit (VhostUserGpuMsgHeader.new GpuBackendReq.CURSOR_POS 0xFF 7).flags 3 =
      false :=
  ⟨(new_header_fields GpuBackendReq.CURSOR_POS 0xFF 7).2.1,
   (new_header_fields GpuBackendReq.CURSOR_POS 0xFF 7).2.2.2.2 3
     (by decide) (by decide)⟩

/-- C7: headers produced by `new` and by `default` satisfy the flags
invariant, and `set_reply` and `set_size` preserve it. -/
theorem flags_invariant_preserved {R : Type} [Req R] (r : R) (f n m : Nat)
    (b : Bool) (h : VhostUserGpuMsgHeader R) :
    flagsInvariant (VhostUserGpuMsgHeader.new r f n) ∧
    flagsInvariant (VhostUserGpuMsgHeader.default R) ∧
    (flagsInvariant h → flagsInvariant (h.set_reply b)) ∧
    (flagsInvariant h → flagsInvariant (h.set_size m)) := by
  refine ⟨?_, ?_, ?_, ?_⟩
  · exact ⟨(new_header_fields r f n).2.2.2.1, (new_header_fields r f n).2.2.2.2⟩
  · constructor
    · show Nat.testBit 0x1 0 = true
      decide
    · intro i hi0 _
      show Nat.testBit 0x1 i = false
      rw [testBit_one_bit]
      simp [hi0]
  · rintro ⟨hbit0, hrest⟩
    cases b
    · constructor
      · show Nat.testBit (h.flags &&& (0xFFFFFFFF ^^^ VhostUserGpuHeaderFlag.REPLY)) 0 =
          true
        rw [Nat.testBit_land, testBit_not_reply, hbit0]
        decide
      · intro i hi0 hi2
        show Nat.testBit (h.flags &&& (0xFFFFFFFF ^^^ VhostUserGpuHeaderFlag.REPLY)) i =
          false
        rw [Nat.testBit_land, hrest i hi0 hi2]
        simp
    · constructor
      · show Nat.testBit (h.flags ||| VhostUserGpuHeaderFlag.REPLY) 0 = true
        rw [Nat.testBit_lor, hbit0]
        simp
      · intro i hi0 hi2
        show Nat.testBit (h.flags ||| VhostUserGpuHeaderFlag.REPLY) i = false
        rw [Nat.testBit_lor, hrest i hi0 hi2, testBit_reply]
        simp [hi2]
  · rintro ⟨hbit0, hrest⟩
    exact ⟨hbit0, hrest⟩

/-- Closed-form instance of C7: the default header satisfies the flags
invariant and marking it as a reply preserves the invariant. -/
theorem flags_invariant_preserved_witness :
    flagsInvariant ((VhostUserGpuMsgHeader.default GpuBackendReq).set_reply true) :=
  (flags_invariant_preserved GpuBackendReq.SCANOUT 0 0 0 true
      (VhostUserGpuMsgHeader.default GpuBackendReq)).2.2.1
    (flags_invariant_preserved GpuBackendReq.SCANOUT 0 0 0 true
      (VhostUserGpuMsgHeader.default GpuBackendReq)).2.1

lemma lor_lor_self (x y : Nat) : x ||| y ||| y = x ||| y := by
  apply Nat.eq_of_testBit_eq
  intro i
  simp only [Nat.testBit_lor]
  cases Nat.testBit x i <;> cases Nat.testBit y i <;> rfl

lemma land_land_self (x y : Nat) : x &&& y &&& y = x &&& y := by
  apply Nat.eq_of_testBit_eq
  intro i
  simp only [Nat.testBit_land]
  cases Nat.testBit x i <;> cases Nat.testBit y i <;> rfl

lemma lor_land_self (x y : Nat) : (x ||| y) &&& y = y := by
  apply Nat.eq_of_testBit_eq
  intro i
  rw [Nat.testBit_land, Nat.testBit_lor]
  cases Nat.testBit x i <;> cases Nat.testBit y i <;> rfl

lemma land_not_reply_land_reply (x : Nat) :
    (x &&& (0xFFFFFFFF ^^^ VhostUserGpuHeaderFlag.REPLY)) &&&
      VhostUserGpuHeaderFlag.REPLY = 0 := by
  apply Nat.eq_of_testBit_eq
  intro i
  rw [Nat.testBit_land, Nat.testBit_land, testBit_not_reply, testBit_reply,
    Nat.zero_testBit]
  by_cases hi : i = 2 <;> simp [hi]

/-! ### Claim theorems (continued) -/

/-- C6: after `set_reply true` the header is a reply, after
`set_reply false` it is not, and `set_reply` is idempotent: applying it
twice with the same boolean equals applying it once. -/
theorem set_reply_semantics {R : Type} (h : VhostUserGpuMsgHeader R) (b : Bool) :
    (h.set_reply true).is_reply = true ∧
    (h.set_reply false).is_reply = false ∧
    (h.set_reply b).set_reply b = h.set_reply b := by
  refine ⟨?_, ?_, ?_⟩
  · show ((h.flags ||| VhostUserGpuHeaderFlag.REPLY) &&&
      VhostUserGpuHeaderFlag.REPLY != 0) = true
    rw [lor_land_self]
    decide
  · show ((h.flags &&& (0xFFFFFFFF ^^^ VhostUserGpuHeaderFlag.REPLY)) &&&
      VhostUserGpuHeaderFlag.REPLY != 0) = false
    rw [land_not_reply_land_reply]
    decide
  · cases b
    · show VhostUserGpuMsgHeader.mk h.request
        (h.flags &&& (0xFFFFFFFF ^^^ VhostUserGpuHeaderFlag.REPLY) &&&
          (0xFFFFFFFF ^^^ VhostUserGpuHeaderFlag.REPLY)) h.size =
        VhostUserGpuMsgHeader.mk h.request
          (h.flags &&& (0xFFFFFFFF ^^^ VhostUserGpuHeaderFlag.REPLY)) h.size
      rw [land_land_self]
    · show VhostUserGpuMsgHeader.mk h.request
        (h.flags ||| VhostUserGpuHeaderFlag.REPLY ||| VhostUserGpuHeaderFlag.REPLY)
        h.size =
        VhostUserGpuMsgHeader.mk h.request
          (h.flags ||| VhostUserGpuHeaderFlag.REPLY) h.size
      rw [lor_lor_self]

/-- Closed-form instance of C6 at the default header. -/
theorem set_reply_semantics_witness :
    ((VhostUserGpuMsgHeader.default GpuBackendReq).set_reply true).is_reply = true :=
  (set_reply_semantics (VhostUserGpuMsgHeader.default GpuBackendReq) true).1

/-- C9: `set_size` changes only the `size` field (and `get_size` then
returns the stored value), and `set_reply` changes neither `request` nor
`size` and no flags bit other than bit 2 (for `u32` flags). -/
theorem mutators_frame {R : Type} (h : VhostUserGpuMsgHeader R) (n : Nat) (b : Bool)
    (hf : h.flags < 2 ^ 32) :
    (h.set_size n).request = h.request ∧
    (h.set_size n).flags = h.flags ∧
    (h.set_size n).get_size = n ∧
    (h.set_reply b).request = h.request ∧
    (h.set_reply b).size = h.size ∧
    (∀ i : Nat, i ≠ 2 →
      Nat.testBit (h.set_reply b).flags i = Nat.testBit h.flags i) := by
  refine ⟨rfl, rfl, rfl, ?_, ?_, ?_⟩
  · cases b <;> rfl
  · cases b <;> rfl
  · intro i hi2
    cases b
    · show Nat.testBit
        (h.flags &&& (0xFFFFFFFF ^^^ VhostUserGpuHeaderFlag.REPLY)) i =
        Nat.testBit h.flags i
      rw [Nat.testBit_land, testBit_not_reply]
      by_cases h32 : i < 32
      · simp [h32, hi2]
      · rw [testBit_high_of_lt hf (by omega)]
        rfl
    · show Nat.testBit (h.flags ||| VhostUserGpuHeaderFlag.REPLY) i =
        Nat.testBit h.flags i
      rw [Nat.testBit_lor, testBit_reply]
      simp [hi2]

/-- Closed-form instance of C9: clearing the reply bit on the default
header leaves the version bit (bit 0) unchanged. -/
theorem mutators_frame_witness :
    Nat.testBit
      ((VhostUserGpuMsgHeader.default GpuBackendReq).set_reply false).flags 0 =
    Nat.testBit (VhostUserGpuMsgHeader.default GpuBackendReq).flags 0 :=
  (mutators_frame (VhostUserGpuMsgHeader.default GpuBackendReq) 0 false
    (by decide)).2.2.2.2.2 0 (by decide)

/-- C2: `is_reply_for` returns true iff both codes decode, the decoded
codes are equal, the reply side has the REPLY bit set, and the request
side does not; in every other case (either decode failing, codes
differing, or the request side already a reply) it returns false. -/
theorem is_reply_for_iff {R : Type} [Req R] [DecidableEq R]
    (h q : VhostUserGpuMsgHeader R) :
    h.is_reply_for q = true ↔
      ∃ c : R, h.get_code = Except.ok c ∧ q.get_code = Except.ok c ∧
        h.is_reply = true ∧ q.is_reply = false := by
  unfold VhostUserGpuMsgHeader.is_reply_for
  cases hc : h.get_code <;> cases hq : q.get_code <;> simp [hc, hq]
  tauto

/-- Closed-form instance of C2: a CURSOR_POS reply header correlates
with a CURSOR_POS request header. -/
theorem is_reply_for_iff_witness :
    (VhostUserGpuMsgHeader.mk 4 0x5 0 :
        VhostUserGpuMsgHeader GpuBackendReq).is_reply_for
      (VhostUserGpuMsgHeader.mk 4 0x1 0) = true :=
  (is_reply_for_iff (VhostUserGpuMsgHeader.mk 4 0x5 0)
      (VhostUserGpuMsgHeader.mk 4 0x1 0)).mpr
    ⟨GpuBackendReq.CURSOR_POS, rfl, rfl, rfl, rfl⟩

/-- C10: reply correlation is irreflexive: no header correlates with
itself, valid or not. -/
theorem is_reply_for_irrefl {R : Type} [Req R] [DecidableEq R]
    (h : VhostUserGpuMsgHeader R) :
    h.is_reply_for h = false := by
  unfold VhostUserGpuMsgHeader.is_reply_for
  cases hc : h.get_code
  · simp [hc]
  · cases hr : h.is_reply <;> simp [hc, hr]

/-- Closed-form instance of C10: a reply-flagged CURSOR_POS header does
not correlate with itself. -/
theorem is_reply_for_irrefl_witness :
    (VhostUserGpuMsgHeader.mk 4 0x5 0 :
        VhostUserGpuMsgHeader GpuBackendReq).is_reply_for
      (VhostUserGpuMsgHeader.mk 4 0x5 0) = false :=
  is_reply_for_irrefl (VhostUserGpuMsgHeader.mk 4 0x5 0)

lemma u32_roundtrip (v : Nat) (hv : v < 2 ^ 32) :
    u32FromBytes (v % 256) (v / 256 % 256) (v / 65536 % 256)
      (v / 16777216 % 256) = v := by
  unfold u32FromBytes
  omega

/-- C4: serializing a header's three `u32` fields at offsets 0, 4 and 8
into exactly 12 bytes and reinterpreting those bytes yields the original
header, and header equality holds iff the three fields are pairwise
equal. -/
theorem header_bytes_roundtrip {R : Type} (h : VhostUserGpuMsgHeader R)
    (hreq : h.request < 2 ^ 32) (hfl : h.flags < 2 ^ 32) (hsz : h.size < 2 ^ 32) :
    h.toBytes.length = 12 ∧
    VhostUserGpuMsgHeader.fromBytes R h.toBytes = some h ∧
    (∀ b : VhostUserGpuMsgHeader R,
      VhostUserGpuMsgHeader.eq h b = true ↔
        h.request = b.request ∧ h.flags = b.flags ∧ h.size = b.size) := by
  refine ⟨rfl, ?_, ?_⟩
  · show some (VhostUserGpuMsgHeader.mk
        (u32FromBytes (h.request % 256) (h.request / 256 % 256)
          (h.request / 65536 % 256) (h.request / 16777216 % 256))
        (u32FromBytes (h.flags % 256) (h.flags / 256 % 256)
          (h.flags / 65536 % 256) (h.flags / 16777216 % 256))
        (u32FromBytes (h.size % 256) (h.size / 256 % 256)
          (h.size / 65536 % 256) (h.size / 16777216 % 256))) = some h
    rw [u32_roundtrip h.request hreq, u32_roundtrip h.flags hfl,
      u32_roundtrip h.size hsz]
  · intro b
    unfold VhostUserGpuMsgHeader.eq
    simp [and_assoc]

/-- Closed-form instance of C4: the 12-byte round trip at a concrete
header. -/
theorem header_bytes_roundtrip_witness :
    VhostUserGpuMsgHeader.fromBytes GpuBackendReq
      (VhostUserGpuMsgHeader.mk 3 5 300 :
        VhostUserGpuMsgHeader GpuBackendReq).toBytes =
      some (VhostUserGpuMsgHeader.mk 3 5 300) :=
  (header_bytes_roundtrip (VhostUserGpuMsgHeader.mk 3 5 300)
    (by decide) (by decide) (by decide)).2.1
